import Mathlib

/-!
Verification development for the mongotron object-document mapper.

The definitions below are a shallow embedding of the change-tracking and
operation-compilation engine of the repository:

  * `Value` models the BSON-compatible Python values handled by the library
    (ints and longs are identified, matching Python `==` which treats
    `5 == 5L` as true; `vBinary` models `bson.Binary`, a `str` subclass;
    `vSet` and `vDict` model `set` and `dict` values).
  * `PyErr` models the exceptions raised by the code.
  * `TypeTok` models the schema mini-language tokens that appear as values of
    a Document subclass `structure` dictionary.
  * `FieldTy` models the `Field` descriptor hierarchy of
    `mongotron/field_types.py`, with `collapseF` / `expandF` / `parseTok`
    embedding `Field.collapse`, `Field.expand` and `field_types.parse`.
  * `Doc` models a `mongotron.Document` instance: its schema data
    (`structure`, `field_map`, `required`, `default_values`) together with its
    per-instance state (`attributes`, `ops`, `dirty_fields`), and the
    operations on it embed the methods of `mongotron/Document.py`.

Python dictionaries are modelled as association lists with first-match
lookup; `updateA` implements dict assignment (replace the binding if the key
is present, append it otherwise), so lookup-after-update agrees with Python
dict semantics.  Python 2 dicts are unordered, therefore all theorems below
observe dictionaries only through lookups, never through entry order.
-/

namespace Mongotron

/-- A BSON-compatible Python value. -/
inductive Value where
  | vNull : Value
  | vBool : Bool → Value
  | vInt : Int → Value
  | vStr : String → Value
  | vBinary : String → Value
  | vOid : String → Value
  | vList : List Value → Value
  | vSet : List Value → Value
  | vDict : List (Value × Value) → Value
deriving Repr

/-- A Python exception, as observable through the library's public surface. -/
inductive PyErr where
  | keyError : String → PyErr
  | valueError : String → PyErr
  | typeError : String → PyErr
  | attributeError : String → PyErr
  | indexError : String → PyErr
  | nameError : String → PyErr
  | missingRequiredFields : List String → PyErr
deriving DecidableEq, Repr

mutual

/-- Python `==` on modelled values.  `bool` compares equal to `int`
(`True == 1`) and `bson.Binary` is a `str` subclass comparing equal by
content; `int` and `long` are already identified by `vInt`.  Container
comparison is structural: in the places the model tests value equality
(set membership), Python only ever compares hashable scalars. -/
def beqV : Value → Value → Bool
  | .vNull, .vNull => true
  | .vBool a, .vBool b => a == b
  | .vBool a, .vInt n => (cond a 1 0 : Int) == n
  | .vInt n, .vBool a => n == (cond a 1 0 : Int)
  | .vInt a, .vInt b => a == b
  | .vStr a, .vStr b => a == b
  | .vStr a, .vBinary b => a == b
  | .vBinary a, .vStr b => a == b
  | .vBinary a, .vBinary b => a == b
  | .vOid a, .vOid b => a == b
  | .vList xs, .vList ys => beqVList xs ys
  | .vSet xs, .vSet ys => beqVList xs ys
  | .vDict xs, .vDict ys => beqVPairs xs ys
  | _, _ => false

/-- Elementwise `beqV` on lists. -/
def beqVList : List Value → List Value → Bool
  | [], [] => true
  | x :: xs, y :: ys => beqV x y && beqVList xs ys
  | _, _ => false

/-- Pairwise `beqV` on dict entries. -/
def beqVPairs : List (Value × Value) → List (Value × Value) → Bool
  | [], [] => true
  | (k, v) :: xs, (k', v') :: ys => beqV k k' && beqV v v' && beqVPairs xs ys
  | _, _ => false

end

/-- First-match association-list lookup; models Python `dict.get`. -/
def lookupA {κ α : Type} [BEq κ] : List (κ × α) → κ → Option α
  | [], _ => none
  | (k, v) :: rest, key => if k == key then some v else lookupA rest key

/-- Dict assignment: replace the first binding of `key`, else append. -/
def updateA {κ α : Type} [BEq κ] : List (κ × α) → κ → α → List (κ × α)
  | [], key, v => [(key, v)]
  | (k, w) :: rest, key, v =>
      if k == key then (key, v) :: rest else (k, w) :: updateA rest key v

/-- Dict deletion of the first binding of `key`; models `del d[key]`. -/
def removeA {κ α : Type} [BEq κ] : List (κ × α) → κ → List (κ × α)
  | [], _ => []
  | (k, w) :: rest, key => if k == key then rest else (k, w) :: removeA rest key

/-- Python `set.add` on a list-modelled set: append the element if absent. -/
def setAdd (l : List String) (k : String) : List String :=
  if k ∈ l then l else l ++ [k]

/-- Python set construction from an iterable: keep the first occurrence of
each element (membership tested with Python `==`, `beqV`). -/
def pyDedup (seen : List Value) : List Value → List Value
  | [] => []
  | v :: vs =>
      if seen.any (beqV v) then pyDedup seen vs
      else v :: pyDedup (v :: seen) vs

/-- Keep the first occurrence of each string; models `set(keys)` iteration. -/
def pyDedupS (seen : List String) : List String → List String
  | [] => []
  | v :: vs => if v ∈ seen then pyDedupS seen vs else v :: pyDedupS (v :: seen) vs

/-- Python `value is None`. -/
def isNoneV : Value → Bool
  | .vNull => true
  | _ => false

/-- Python `isinstance(value, list)` on a value. -/
def isListV : Value → Bool
  | .vList _ => true
  | _ => false

/-- A schema mini-language token: a possible value of a Document subclass
`structure` dict.  `tList`/`tSet`/`tDict` are container literals (for example
`[int]`, `set([int])`, `{int: str}`), while `tListType`/`tSetType`/`tDictType`
are the bare Python types `list`, `set`, `dict` used as tokens.  Scalar tokens
cover the types the claims exercise: `bool`, `str`/`bytes`, `int`/`long` and
`bson.ObjectId`. -/
inductive TypeTok where
  | tNone : TypeTok
  | tList : List TypeTok → TypeTok
  | tListType : TypeTok
  | tSet : List TypeTok → TypeTok
  | tSetType : TypeTok
  | tDict : List (TypeTok × TypeTok) → TypeTok
  | tDictType : TypeTok
  | tBool : TypeTok
  | tStr : TypeTok
  | tInt : TypeTok
  | tOid : TypeTok
deriving Repr

/-- The parsed field descriptors of `field_types.py` restricted to the kinds
the schema tokens above can produce: `Field` (anything), `BoolField`,
`BlobField`, `IntField`, `ObjectIdField`, `ListField`, `SetField`,
`FixedListField` and `DictField`. -/
inductive FieldTy where
  | anyF : FieldTy
  | boolF : FieldTy
  | blobF : FieldTy
  | intF : FieldTy
  | oidF : FieldTy
  | listF : FieldTy → FieldTy
  | setF : FieldTy → FieldTy
  | fixedF : List FieldTy → FieldTy
  | dictF : FieldTy → FieldTy → FieldTy
deriving Repr

/-- Embeds `field_types.is_basic` applied to a parsed field: true exactly when
the field's `collapse` and `expand` are `Field`'s defaults.  `BlobField`
overrides both; `IntField` sets `collapse = staticmethod(long)`, whose lookup
has no `im_func`, so `is_basic` answers `False` for it via its
`AttributeError` handler; every container field overrides `collapse`. -/
def isBasicF : FieldTy → Bool
  | .anyF => true
  | .boolF => true
  | .oidF => true
  | _ => false

mutual

/-- Embeds `field_types.parse` (the ordered `TYPE_ORDER` dispatch) on the
tokens of `TypeTok`.  Note the quirk that `ListField.EMPTY_VALUE` is `set()`,
so an empty set literal parses as a `ListField` before `SetField` is tried.
`none` models `parse` raising: `ValueError` when no parser matches, and
`TypeError` for any NON-empty set literal — `SetField` inherits
`ListField.parse`, whose specific-element branch evaluates `obj[0]`, which
sets do not support, so the documented `set([int])` form raises
`TypeError: 'set' object does not support indexing`; a set of two or more
elements misses every container branch and reaches
`DocumentField.parse`, whose `issubclass(obj, Document)` raises `TypeError`
on a non-class.  Only the bare `set` type token yields a `SetField`. -/
def parseTok : TypeTok → Option FieldTy
  | .tNone => some .anyF
  | .tList [] => some (.listF .anyF)
  | .tList [e] => (parseTok e).map .listF
  | .tList (e :: e' :: es) => (parseTokList (e :: e' :: es)).map .fixedF
  | .tListType => some (.listF .anyF)
  | .tSet [] => some (.listF .anyF)
  | .tSet (_ :: _) => none
  | .tSetType => some (.setF .anyF)
  | .tDict [] => some (.dictF .anyF .anyF)
  | .tDict [(k, v)] =>
      match parseTok k, parseTok v with
      | some kf, some vf => some (.dictF kf vf)
      | _, _ => none
  | .tDict (_ :: _ :: _) => none
  | .tDictType => some (.dictF .anyF .anyF)
  | .tBool => some .boolF
  | .tStr => some .blobF
  | .tInt => some .intF
  | .tOid => some .oidF

/-- Parse each element token (`FixedListField.__init__`). -/
def parseTokList : List TypeTok → Option (List FieldTy)
  | [] => some []
  | t :: ts =>
      match parseTok t, parseTokList ts with
      | some f, some fs => some (f :: fs)
      | _, _ => none

end

mutual

/-- Embeds `Field.collapse` and its overrides.  `IntField.collapse` is
`long`, which is numerically the identity on ints (Python `==` identifies
`int` and `long`) and parses numeric strings; `BlobField.collapse` wraps the
byte string in `bson.Binary`; `ListField`/`DictField` skip per-element
collapse when `basic`; `SetField.collapse` maps collapse over the elements
and returns a list; `FixedListField` collapses positionally. -/
def collapseF : FieldTy → Value → Except PyErr Value
  | .anyF, v => .ok v
  | .boolF, v => .ok v
  | .oidF, v => .ok v
  | .intF, v =>
      match v with
      | .vInt n => .ok (.vInt n)
      | .vBool b => .ok (.vInt (cond b 1 0))
      | .vStr s =>
          match s.toInt? with
          | some n => .ok (.vInt n)
          | none => .error (.valueError "invalid literal for long")
      | .vBinary s =>
          match s.toInt? with
          | some n => .ok (.vInt n)
          | none => .error (.valueError "invalid literal for long")
      | _ => .error (.typeError "long argument must be a number or string")
  | .blobF, v =>
      match v with
      | .vStr s => .ok (.vBinary s)
      | .vBinary s => .ok (.vBinary s)
      | _ => .error (.typeError "Binary data must be an instance of str")
  | .listF e, v =>
      if isBasicF e then .ok v
      else
        match v with
        | .vList xs => (collapseList e xs).map .vList
        | .vSet xs => (collapseList e xs).map .vList
        | _ => .error (.typeError "argument is not iterable")
  | .setF e, v =>
      match v with
      | .vSet xs => (collapseList e xs).map .vList
      | .vList xs => (collapseList e xs).map .vList
      | _ => .error (.typeError "argument is not iterable")
  | .fixedF ts, v =>
      match v with
      | .vList xs => (collapseZip ts xs).map .vList
      | _ => .error (.typeError "argument is not iterable")
  | .dictF kt vt, v =>
      if isBasicF kt && isBasicF vt then .ok v
      else
        match v with
        | .vDict es => (collapsePairs kt vt es).map .vDict
        | _ => .error (.typeError "argument has no iteritems")

/-- Collapse every element of a list with the element field. -/
def collapseList (e : FieldTy) : List Value → Except PyErr (List Value)
  | [] => .ok []
  | v :: vs => do
      let w ← collapseF e v
      let ws ← collapseList e vs
      pure (w :: ws)

/-- Positional collapse for `FixedListField`; a value longer than the type
list indexes past `element_types` and raises `IndexError`. -/
def collapseZip : List FieldTy → List Value → Except PyErr (List Value)
  | _, [] => .ok []
  | [], _ :: _ => .error (.indexError "list index out of range")
  | t :: ts, v :: vs => do
      let w ← collapseF t v
      let ws ← collapseZip ts vs
      pure (w :: ws)

/-- Collapse keys and values of a dict's entries (`DictField.collapse`). -/
def collapsePairs (kt vt : FieldTy) :
    List (Value × Value) → Except PyErr (List (Value × Value))
  | [] => .ok []
  | (k, v) :: rest => do
      let k' ← collapseF kt k
      let v' ← collapseF vt v
      let rest' ← collapsePairs kt vt rest
      pure ((k', v') :: rest')

end

mutual

/-- Embeds `Field.expand` and its overrides.  `IntField` does not override
`expand`; `BlobField.expand` unwraps `bson.Binary` back to a byte string and
rejects other values; `SetField.expand` builds a set from the expanded
elements; in `DictField.expand` the non-basic branch of the source reads the
undefined name `dct` (its parameter is `value`), so it raises `NameError`. -/
def expandF : FieldTy → Value → Except PyErr Value
  | .anyF, v => .ok v
  | .boolF, v => .ok v
  | .oidF, v => .ok v
  | .intF, v => .ok v
  | .blobF, v =>
      match v with
      | .vBinary s => .ok (.vStr s)
      | .vStr s => .ok (.vStr s)
      | _ => .error (.valueError "must be a BLOB")
  | .listF e, v =>
      if isBasicF e then .ok v
      else
        match v with
        | .vList xs => (expandList e xs).map .vList
        | .vSet xs => (expandList e xs).map .vList
        | _ => .error (.typeError "argument is not iterable")
  | .setF e, v =>
      match v with
      | .vList xs => (expandList e xs).map (fun ys => .vSet (pyDedup [] ys))
      | .vSet xs => (expandList e xs).map (fun ys => .vSet (pyDedup [] ys))
      | _ => .error (.typeError "argument is not iterable")
  | .fixedF ts, v =>
      match v with
      | .vList xs => (expandZip ts xs).map .vList
      | _ => .error (.typeError "argument is not iterable")
  | .dictF kt vt, v =>
      if isBasicF kt && isBasicF vt then .ok v
      else .error (.nameError "global name dct is not defined")

/-- Expand every element of a list with the element field. -/
def expandList (e : FieldTy) : List Value → Except PyErr (List Value)
  | [] => .ok []
  | v :: vs => do
      let w ← expandF e v
      let ws ← expandList e vs
      pure (w :: ws)

/-- Positional expand for `FixedListField`. -/
def expandZip : List FieldTy → List Value → Except PyErr (List Value)
  | _, [] => .ok []
  | [], _ :: _ => .error (.indexError "list index out of range")
  | t :: ts, v :: vs => do
      let w ← expandF t v
      let ws ← expandZip ts vs
      pure (w :: ws)

end

/-- A `mongotron.Document` instance: the class-level schema data
(`structure`, `field_map`, `required`, `default_values` — `structure` is
spelled `structure_` because `structure` is a Lean keyword) together with the
per-instance state `__attributes`, `__ops` and `__dirty_fields`.  The
`__ops` map sends a Mongo operator name to a dict from short field name to
its accumulated operand value. -/
structure Doc where
  structure_ : List (String × TypeTok)
  field_map : List (String × String)
  required : List String
  default_values : List (String × Value)
  attributes : List (String × Value)
  ops : List (String × List (String × Value))
  dirty_fields : List String
deriving Repr

/-- Embeds `Document.long_to_short`. -/
def Doc.long_to_short (d : Doc) (long_key : String) : String :=
  (lookupA d.field_map long_key).getD long_key

/-- Embeds `Document.short_to_long`.  The `inverse_field_map` dict that
`__init__` populates from `field_map` is modelled as the derived inverse
lookup. -/
def Doc.short_to_long (d : Doc) (short_key : String) : String :=
  (lookupA (d.field_map.foldl (fun acc p => updateA acc p.2 p.1) []) short_key).getD
    short_key

/-- Python truthiness of a schema token: `key_in_structure` and
`load_attr_dict` test `if type_:` / `if value_type:`, so `None` and the
empty container literals count as absent. -/
def tokTruthy : TypeTok → Bool
  | .tNone => false
  | .tList [] => false
  | .tSet [] => false
  | .tDict [] => false
  | _ => true

/-- Embeds `Document.key_in_structure`: `structure.get(key, None)` followed
by the truthiness test `if type_:` — it returns `True` when the key's schema
token is truthy, and otherwise (key absent, or declared with a falsy token
such as `None`, `[]`, `{}` or `set()`) raises `AttributeError`.  It never
returns `False`, which makes the `else` branches of `__getattr__` and
`__setattr__` (including the `__internalfields` escape) unreachable. -/
def Doc.key_in_structure (d : Doc) (key : String) : Except PyErr Bool :=
  match lookupA d.structure_ key with
  | some type_ =>
      if tokTruthy type_ then .ok true else .error (.attributeError key)
  | none => .error (.attributeError key)

/-- The exception raised by assigning a fresh container to an internal
instance attribute — `self.__attributes = {}` in `__init__` and
`load_attr_dict`, `self.__ops = {}` and `self.__dirty_fields = set()` in
`clear_ops`.  The assignment is intercepted by `__setattr__`, which first
calls `key_in_structure` on the name-mangled key (`_Document__attributes`,
`_Document__ops`, `_Document__dirty_fields`); since `key_in_structure` never
returns `False`, it raises `AttributeError` whenever the mangled name is not
truthily declared in `structure` — which no schema does, so the intended
`__internalfields` branch of `__setattr__` is dead code.  (A schema that
declared the mangled name as a string key would instead send `__setattr__`
into its typed-assignment branch over a half-initialised instance; that
pathological corner is mapped to a `TypeError` here and is excluded by
hypothesis from every theorem that touches it.) -/
def Doc.internalAssignErr (d : Doc) (name : String) : PyErr :=
  match d.key_in_structure name with
  | .error e => e
  | .ok _ => .typeError "mangled internal name declared in structure"

/-- Embeds `Document.has_id`: whether the key is present, not whether its
value is non-null. -/
def Doc.has_id (d : Doc) : Bool :=
  (lookupA d.attributes "_id").isSome

/-- Embeds `Document.mark_dirty` (`__dirty_fields.add(key)`). -/
def Doc.mark_dirty (d : Doc) (key : String) : Doc :=
  { d with dirty_fields := setAdd d.dirty_fields key }

/-- Embeds `Document._mark_as_changed`, the notification entry point used by
the change-tracking containers; it discards the value and only marks the
field dirty. -/
def Doc.mark_as_changed (d : Doc) (key : String) : Doc :=
  d.mark_dirty key

/-- Embeds `Document.clear_ops`.  Its first statement `self.__ops = {}` is
an attribute assignment and is intercepted by `__setattr__`, whose
`key_in_structure` call raises `AttributeError` for the mangled internal
name (see `Doc.internalAssignErr`); the pending-ops and dirty state are
therefore never actually cleared. -/
def Doc.clear_ops (d : Doc) : Doc × Option PyErr :=
  (d, some (d.internalAssignErr "_Document__ops"))

/-- The operand accumulation step of `add_operation`:
`param_list.extend(val)` when the operand is a list, else
`param_list.append(val)`. -/
def extendOrAppend (xs : List Value) (val : Value) : List Value :=
  match val with
  | .vList vs => xs ++ vs
  | _ => xs ++ [val]

/-- Lookup of the string key `$each` in a Python dict with `Value` keys. -/
def eachLookup : List (Value × Value) → Option Value
  | [] => none
  | (k, w) :: rest =>
      match k with
      | .vStr s => if s == "$each" then some w else eachLookup rest
      | _ => eachLookup rest

/-- Assignment to the string key `$each` in a Python dict with `Value`
keys. -/
def eachUpdate : List (Value × Value) → Value → List (Value × Value)
  | [], v => [(.vStr "$each", v)]
  | (k, w) :: rest, v =>
      match k with
      | .vStr s =>
          if s == "$each" then (.vStr "$each", v) :: rest
          else (k, w) :: eachUpdate rest v
      | _ => (k, w) :: eachUpdate rest v

/-- Embeds `Document.add_operation`.  An undeclared key raises `KeyError`
before any state is touched.  Operands that are `Document` instances are
converted with `document_as_dict`, and list operands convert embedded
documents elementwise; embedded documents are outside the modelled value
fragment, so both conversions are the identity here.  `$addToSet` operands
accumulate inside the per-key `$each` list; every other operator accumulates
in a plain per-key list (`append` for scalars, `extend` for list operands).
The source assigns `self.__ops[op] = {}` before rejecting a direct `$set`;
that mutation is unobservable through the wrapper methods, which never pass
`$set`, and is not modelled on the error path. -/
def Doc.add_operation (d : Doc) (op key : String) (val : Value) :
    Except PyErr Doc :=
  if (lookupA d.structure_ key).isNone then
    .error (.keyError (key ++ " is not a settable key"))
  else
    let key := d.long_to_short key
    let opd := (lookupA d.ops op).getD []
    if op == "$set" then .error (.valueError "$set is an invalid operation")
    else if op == "$addToSet" then
      let pd :=
        match lookupA opd key with
        | some w => w
        | none => .vDict [(.vStr "$each", .vList [])]
      match pd with
      | .vDict entries =>
          match eachLookup entries with
          | some (.vList xs) =>
              let pd' := Value.vDict (eachUpdate entries (.vList (extendOrAppend xs val)))
              .ok { d with ops := updateA d.ops op (updateA opd key pd') }
          | some _ => .error (.attributeError "append")
          | none => .error (.keyError "$each")
      | _ => .error (.typeError "param dict is not subscriptable")
    else
      let pl :=
        match lookupA opd key with
        | some w => w
        | none => Value.vList []
      match pl with
      | .vList xs =>
          .ok { d with
                  ops := updateA d.ops op
                    (updateA opd key (.vList (extendOrAppend xs val))) }
      | _ => .error (.attributeError "append")

/-- Embeds `Document.unset`: enqueue the `$unset` operation first, then
delete the attribute; deleting an absent attribute raises `KeyError` with
the enqueued operation already recorded. -/
def Doc.unset (d : Doc) (key : String) : Doc × Option PyErr :=
  match d.add_operation "$unset" key (.vInt 1) with
  | .error e => (d, some e)
  | .ok d1 =>
      if (lookupA d1.attributes key).isSome then
        ({ d1 with attributes := removeA d1.attributes key }, none)
      else (d1, some (.keyError key))

/-- Embeds `Document.set`: `None` routes to `unset`; otherwise the key is
marked dirty and the attribute overwritten, with no schema check. -/
def Doc.set (d : Doc) (key : String) (value : Value) : Doc × Option PyErr :=
  if isNoneV value then d.unset key
  else
    ({ d with dirty_fields := setAdd d.dirty_fields key,
              attributes := updateA d.attributes key value }, none)

/-- Embeds `Document.inc`. -/
def Doc.inc (d : Doc) (key : String) (value : Value) : Except PyErr Doc :=
  d.add_operation "$inc" key value

/-- Embeds `Document.dec` (`$inc` with `-abs(value)`). -/
def Doc.dec (d : Doc) (key : String) (value : Value) : Except PyErr Doc :=
  match value with
  | .vInt n => d.add_operation "$inc" key (.vInt (-(n.natAbs : Int)))
  | .vBool b => d.add_operation "$inc" key (.vInt (-(cond b 1 0 : Int)))
  | _ => .error (.typeError "bad operand type for abs")

/-- Embeds `Document.addToSet`. -/
def Doc.addToSet (d : Doc) (key : String) (value : Value) : Except PyErr Doc :=
  d.add_operation "$addToSet" key value

/-- Embeds `Document.pull` (`$pullAll`). -/
def Doc.pull (d : Doc) (key : String) (value : Value) : Except PyErr Doc :=
  d.add_operation "$pullAll" key value

/-- Embeds `Document.push` (`$pushAll`). -/
def Doc.push (d : Doc) (key : String) (value : Value) : Except PyErr Doc :=
  d.add_operation "$pushAll" key value

/-- The per-value conversion `Document.operations` applies to each dirty
field: sets become lists; `Document` values and embedded documents inside
lists become dicts (identity on the modelled fragment). -/
def convOp : Value → Value
  | .vSet xs => .vList xs
  | w => w

/-- Builds the `$set` dict of `Document.operations` from the dirty fields;
a dirty key with no attribute raises `KeyError`
(`self.__attributes[key]`). -/
def Doc.buildFields (d : Doc) :
    List String → List (String × Value) → Except PyErr (List (String × Value))
  | [], acc => .ok acc
  | k :: ks, acc =>
      match lookupA d.attributes k with
      | none => .error (.keyError k)
      | some v => d.buildFields ks (updateA acc (d.long_to_short k) (convOp v))

/-- Embeds the `Document.operations` property: the accumulated `__ops`
merged with `{$set: fields}`, the `$set` entry of the merge taken from the
dirty fields (`dict(ops.items() + fields_to_set.items())`, later entries
winning). -/
def Doc.operations (d : Doc) :
    Except PyErr (List (String × List (String × Value))) :=
  match d.buildFields d.dirty_fields [] with
  | .error e => .error e
  | .ok fields => .ok (updateA d.ops "$set" fields)

/-- Convenience observation: the operand accumulated for `key` under
operator `op` in the pending-ops state. -/
def Doc.opEntry (d : Doc) (op key : String) : Option Value :=
  lookupA ((lookupA d.ops op).getD []) key

/-- Convenience observation: the operand recorded for `key` under operator
`op` in a compiled operations document. -/
def opsDocEntry (m : List (String × List (String × Value))) (op key : String) :
    Option Value :=
  lookupA ((lookupA m op).getD []) key

/-- Python `isinstance(v, token)` for tokens that are classes. -/
def isinstTok : TypeTok → Value → Bool
  | .tListType, .vList _ => true
  | .tSetType, .vSet _ => true
  | .tDictType, .vDict _ => true
  | .tBool, .vBool _ => true
  | .tStr, .vStr _ => true
  | .tStr, .vBinary _ => true
  | .tInt, .vInt _ => true
  | .tInt, .vBool _ => true
  | .tOid, .vOid _ => true
  | _, _ => false

/-- Python truthiness of a value. -/
def truthyV : Value → Bool
  | .vNull => false
  | .vBool b => b
  | .vInt n => n != 0
  | .vStr s => s != ""
  | .vBinary s => s != ""
  | .vOid _ => true
  | .vList xs => !xs.isEmpty
  | .vSet xs => !xs.isEmpty
  | .vDict xs => !xs.isEmpty

/-- The constructor call `value_type(v)` that `load_attr_dict` performs when
a loaded value is not an instance of its class token.  Conversions whose
Python result has no counterpart in the modelled value fragment (such as
`list(str)` producing a character list, or `str` of a container producing its
repr) are mapped to errors; no schema in this development reaches them. -/
def coerceTok : TypeTok → Value → Except PyErr Value
  | .tListType, .vSet xs => .ok (.vList xs)
  | .tListType, .vDict es => .ok (.vList (es.map (·.1)))
  | .tListType, _ => .error (.typeError "argument is not iterable")
  | .tSetType, .vList xs => .ok (.vSet (pyDedup [] xs))
  | .tSetType, .vDict es => .ok (.vSet (pyDedup [] (es.map (·.1))))
  | .tSetType, _ => .error (.typeError "argument is not iterable")
  | .tDictType, _ => .error (.typeError "cannot convert to dict")
  | .tBool, v => .ok (.vBool (truthyV v))
  | .tInt, .vStr s =>
      match s.toInt? with
      | some n => .ok (.vInt n)
      | none => .error (.valueError "invalid literal for int")
  | .tInt, .vBinary s =>
      match s.toInt? with
      | some n => .ok (.vInt n)
      | none => .error (.valueError "invalid literal for int")
  | .tInt, _ => .error (.typeError "int argument must be a number or string")
  | .tStr, .vInt n => .ok (.vStr (toString n))
  | .tStr, .vBool b => .ok (.vStr (cond b "True" "False"))
  | .tStr, .vNull => .ok (.vStr "None")
  | .tStr, _ => .error (.typeError "str of a container is not modelled")
  | .tOid, .vStr s => .ok (.vOid s)
  | .tOid, _ => .error (.typeError "id must be an instance of basestring")
  | .tNone, _ => .error (.typeError "not a class token")
  | .tList _, _ => .error (.typeError "not a class token")
  | .tSet _, _ => .error (.typeError "not a class token")
  | .tDict _, _ => .error (.typeError "not a class token")

/-- Per-entry value handling of `Document.load_attr_dict`: an absent or
falsy token stores the value raw; a list-of-types token requires a list
value (elements are kept as-is, there being no `Document` element types in
the model); other literal container tokens make `isinstance` raise
`TypeError`; a class token stores instances unchanged and otherwise applies
the constructor coercion `value_type(v)`. -/
def loadVal (vt : Option TypeTok) (v : Value) : Except PyErr Value :=
  match vt with
  | none => .ok v
  | some t =>
      if !tokTruthy t then .ok v
      else
        match t with
        | .tList _ =>
            match v with
            | .vList xs => .ok (.vList xs)
            | _ => .error (.valueError "wrong type")
        | .tSet _ => .error (.typeError "isinstance arg 2 must be a class")
        | .tDict _ => .error (.typeError "isinstance arg 2 must be a class")
        | t' => if isinstTok t' v then .ok v else coerceTok t' v

/-- The entry loop of `Document.load_attr_dict`: store each entry under its
canonical name and discard that name from the pending default keys.  An
error aborts the loop, leaving the attributes loaded so far.  The loop is
unreachable in the source: the attribute reset that precedes it raises
first (see `Doc.load_attr_dict`). -/
def Doc.load_attr_aux (d : Doc) :
    List (String × Value) → List String → (Doc × List String) × Option PyErr
  | [], dks => ((d, dks), none)
  | (k, v) :: rest, dks =>
      let k' := d.short_to_long k
      match loadVal (lookupA d.structure_ k') v with
      | .error e => ((d, dks), some e)
      | .ok w =>
          let d1 := { d with attributes := updateA d.attributes k' w }
          d1.load_attr_aux rest (dks.filter (fun dk => dk ≠ k'))

/-- Embeds `Document.load_attr_dict`.  Its first statement resets the
attributes with `self.__attributes = {}` — an attribute assignment that
`__setattr__` intercepts and whose `key_in_structure` call raises
`AttributeError` for the mangled internal name (see
`Doc.internalAssignErr`), so the entry loop never runs and the document
state is left untouched. -/
def Doc.load_attr_dict (d : Doc) (_doc : List (String × Value))
    (default_keys : List String) : (Doc × List String) × Option PyErr :=
  ((d, default_keys), some (d.internalAssignErr "_Document__attributes"))

/-- Embeds `Document.load_defaults_for_keys`: each remaining default key is
written through `set` so that it is saved back to the store (callable
defaults are invoked and mutable defaults copied; with values as data both
are the value itself).  Unreachable in the source: `load_dict` raises inside
`load_attr_dict` before reaching this call. -/
def Doc.load_defaults_for_keys (d : Doc) : List String → Doc × Option PyErr
  | [] => (d, none)
  | dk :: rest =>
      match lookupA d.default_values dk with
      | none => (d, some (.keyError dk))
      | some nv =>
          match d.set dk nv with
          | (d1, none) => d1.load_defaults_for_keys rest
          | (d1, some e) => (d1, some e)

/-- Embeds `Document.load_dict`: load the given document (or `{}`), then
populate defaults for the keys the document did not provide. -/
def Doc.load_dict (d : Doc) (dicttoload : Option (List (String × Value))) :
    Doc × Option PyErr :=
  let default_keys := pyDedupS [] (d.default_values.map (·.1))
  match d.load_attr_dict (dicttoload.getD []) default_keys with
  | ((d1, dks), none) => d1.load_defaults_for_keys dks
  | ((d1, _), some e) => (d1, some e)

/-- The class-level data of a `Document` subclass, as assembled by the
metaclass. -/
structure DocClass where
  structure_ : List (String × TypeTok)
  field_map : List (String × String)
  required : List String
  default_values : List (String × Value)
deriving Repr

/-- A freshly allocated instance as `__init__` receives it, standing in for
the internal dicts the constructor would create: empty attributes and empty
ops/dirty state.  Unobservable through the source API, since `__init__`
raises at its first statement. -/
def DocClass.mkDoc (c : DocClass) : Doc :=
  { structure_ := c.structure_, field_map := c.field_map,
    required := c.required, default_values := c.default_values,
    attributes := [], ops := [], dirty_fields := [] }

/-- Embeds `Document.__init__`.  Its first statement
`self.__attributes = {}` is an attribute assignment, intercepted by
`__setattr__`, whose `key_in_structure` call raises `AttributeError` for
the mangled internal name (see `Doc.internalAssignErr`) — so no
construction ever completes, and the inverse-map population, `clear_ops`
and `load_dict(doc)` below it are unreachable. -/
def DocClass.init (c : DocClass) (_doc : Option (List (String × Value))) :
    Doc × Option PyErr :=
  (c.mkDoc, some (c.mkDoc.internalAssignErr "_Document__attributes"))

/-- The result of reading a schema field through `Document.__getattr__`:
`None`, a plain value, or a freshly constructed change-tracking wrapper
(`ChangeTrackingList` / `ChangeTrackingDict`) holding its own copy of the
container's items together with the owning field name. -/
inductive ReadRes where
  | rNone : ReadRes
  | rVal : Value → ReadRes
  | rCTL : String → List Value → ReadRes
  | rCTD : String → List (Value × Value) → ReadRes
deriving Repr

/-- Whether a token is a literal `set` instance (`isinstance(t, set)`). -/
def isSetLit : TypeTok → Bool
  | .tSet _ => true
  | _ => false

/-- Whether a token is a literal `list` instance. -/
def isListLit : TypeTok → Bool
  | .tList _ => true
  | _ => false

/-- Whether a token is a literal `dict` instance. -/
def isDictLit : TypeTok → Bool
  | .tDict _ => true
  | _ => false

/-- The absent-or-None branch of `Document.__getattr__`: literal container
tokens produce an empty `set()` or an empty fresh wrapper; anything else
returns `None`. -/
def getattrNone (key : String) (vt : TypeTok) : ReadRes :=
  if isSetLit vt then .rVal (.vSet [])
  else if isListLit vt then .rCTL key []
  else if isDictLit vt then .rCTD key []
  else .rNone

/-- The value-present branch of `Document.__getattr__`: a stored list under
a literal set token becomes a plain set; otherwise lists and dicts are
wrapped in fresh change-tracking containers (stored values are never wrapper
instances in the model) and scalars are returned as-is. -/
def getattrPresent (key : String) (vt : TypeTok) (attr : Value) : ReadRes :=
  let attr :=
    match attr, isSetLit vt with
    | .vList xs, true => Value.vSet (pyDedup [] xs)
    | a, _ => a
  match attr with
  | .vList xs => .rCTL key xs
  | .vDict es => .rCTD key es
  | a => .rVal a

/-- Embeds `Document.__getattr__` for schema fields.  The guard is
`key_in_structure`, which raises `AttributeError` both for undeclared keys
and for keys declared with a falsy token (it never returns `False`); under
the guard `structure.get(key, None)` is the present, truthy token, and
`attributes.get(key, None)` treats a stored `None` like an absent key. -/
def Doc.getattrF (d : Doc) (key : String) : Except PyErr ReadRes :=
  match d.key_in_structure key with
  | .error e => .error e
  | .ok _ =>
      let vt := (lookupA d.structure_ key).getD .tNone
      match lookupA d.attributes key with
      | none => .ok (getattrNone key vt)
      | some .vNull => .ok (getattrNone key vt)
      | some attr => .ok (getattrPresent key vt attr)

/-- Embeds `ChangeTrackingList.append`: notify the owner through
`_mark_as_changed` (which only marks the field dirty), then perform
`list.append` on the wrapper's own storage — the wrapper was initialised
with a copy of the document's list, so the document's stored attribute is
not touched. -/
def CTL_append (d : Doc) (name : String) (items : List Value) (v : Value) :
    Doc × List Value :=
  (d.mark_as_changed name, items ++ [v])

/-- The lifecycle hooks of `Document`; each defaults to a no-op and a
subclass may override any of them. -/
structure Hooks where
  pre_save : Doc → Doc
  pre_insert : Doc → Doc
  pre_update : Doc → Doc
  post_insert : Doc → Doc
  post_update : Doc → Doc
  post_save : Doc → Doc

/-- The hooks of a subclass that overrides nothing. -/
def defaultHooks : Hooks :=
  ⟨id, id, id, id, id, id⟩

/-- The document state after `pre_save` and the matching
`pre_insert`/`pre_update` hook, exactly as `save` computes it before the
required-fields check. -/
def Doc.preHooked (d : Doc) (hooks : Hooks) : Doc :=
  let d1 := hooks.pre_save d
  if !d1.has_id then hooks.pre_insert d1 else hooks.pre_update d1

/-- The required field names a document is missing:
`set(required) - set(attributes.keys())`, observed as a filtered list. -/
def missingOf (d : Doc) : List String :=
  d.required.filter (fun k => (lookupA d.attributes k).isNone)

/-- The outcome of `Document.save`: the resulting document or the exception
raised, together with the number of `find_and_modify` round trips issued to
the store. -/
structure SaveOutcome where
  result : Except PyErr Doc
  storeCalls : Nat
deriving Repr

/-- The store phase of `Document.save`, after the required-fields check has
passed: compile `operations`; if non-empty (`if ops:`), one
`find_and_modify` round trip whose returned document `res` is passed to
`load_dict` — which raises `AttributeError` at its attribute reset (see
`Doc.load_attr_dict`), aborting the save AFTER the round trip was issued.
The post hook, `clear_ops` and `post_save` sequence below the reload is
spelled out but unreachable, as is the whole empty-ops branch
(`operations` always contains `$set`), where `clear_ops` raises likewise. -/
def Doc.savePost (d2 : Doc) (hooks : Hooks) (isNew : Bool)
    (res : List (String × Value)) : SaveOutcome :=
  match d2.operations with
  | .error e => ⟨.error e, 0⟩
  | .ok ops =>
      if ops.isEmpty then
        let d3 := if isNew then hooks.post_insert d2 else hooks.post_update d2
        match d3.clear_ops with
        | (_, some e) => ⟨.error e, 0⟩
        | (d4, none) => ⟨.ok (hooks.post_save d4), 0⟩
      else
        match d2.load_dict (some res) with
        | (_, some e) => ⟨.error e, 1⟩
        | (d3, none) =>
            let d4 := if isNew then hooks.post_insert d3 else hooks.post_update d3
            match d4.clear_ops with
            | (_, some e) => ⟨.error e, 1⟩
            | (d5, none) => ⟨.ok (hooks.post_save d5), 1⟩

/-- Embeds `Document.save`.  `res` stands for the post-update document the
store returns from the atomic `find_and_modify` upsert (the insert branch
keys the query by a fresh ObjectId and the update branch by the stored
`_id`; the claims only observe whether the round trip happens).  Order of
the source: `pre_save`; branch on identity presence into
`pre_insert`/`pre_update`; the required-fields check (raising `ValueError`
carrying the missing names, modelled as `missingRequiredFields`); then the
store phase `savePost`. -/
def Doc.save (d : Doc) (hooks : Hooks) (res : List (String × Value)) :
    SaveOutcome :=
  let d1 := hooks.pre_save d
  let isNew := !d1.has_id
  let d2 := if isNew then hooks.pre_insert d1 else hooks.pre_update d1
  let missing := missingOf d2
  if missing ≠ [] then ⟨.error (.missingRequiredFields missing), 0⟩
  else d2.savePost hooks isNew res

/-- Subscripting a `Document` (`self[key]`).  `Document` defines no
`__getitem__`, and Python 2 resolves special methods of new-style classes on
the type without consulting `__getattr__`, so every subscript raises
`TypeError`. -/
def Doc.getitem (_d : Doc) (_key : String) : Except PyErr Value :=
  .error (.typeError "Document object has no attribute getitem")

/-- The outcome of `Document.delete`: success or the exception raised,
together with the number of `remove` calls issued to the store. -/
structure DeleteOutcome where
  result : Except PyErr Unit
  removeCalls : Nat
deriving Repr

/-- Embeds `Document.delete`: raise `ValueError` when no `_id` is present;
otherwise evaluate `remove({'_id': self['_id']})` — the argument evaluates
`self['_id']`, which raises `TypeError` (see `Doc.getitem`) before `remove`
is ever invoked. -/
def Doc.delete (d : Doc) : DeleteOutcome :=
  if !d.has_id then ⟨.error (.valueError "document has no _id"), 0⟩
  else
    match d.getitem "_id" with
    | .error e => ⟨.error e, 0⟩
    | .ok _ => ⟨.ok (), 1⟩

/-- The accumulated operand list for `key` under `op`, with a fresh empty
list when no entry exists yet — the state `add_operation` appends to. -/
def Doc.opEntryList (d : Doc) (op sk : String) : List Value :=
  match lookupA ((lookupA d.ops op).getD []) sk with
  | some (.vList xs) => xs
  | _ => []

/-! ### Example schemas used by the concrete theorems -/

/-- A class with a single optional int field. -/
def intClass : DocClass :=
  ⟨[("_id", .tOid), ("x", .tInt)], [], [], []⟩

/-- A fresh, empty `intClass` document. -/
def intDoc : Doc := intClass.mkDoc

/-- An `intClass` document whose `x` attribute holds `1`. -/
def intDocX : Doc := { intClass.mkDoc with attributes := [("x", .vInt 1)] }

/-- An `intClass` document that has an identity. -/
def idDoc : Doc := { intClass.mkDoc with attributes := [("_id", .vOid "abc")] }

/-- A class with a homogeneous int list field. -/
def listClass : DocClass :=
  ⟨[("_id", .tOid), ("xs", .tList [.tInt])], [], [], []⟩

/-- A `listClass` document whose `xs` attribute holds the list `[1]`. -/
def listDoc : Doc :=
  { listClass.mkDoc with attributes := [("xs", .vList [.vInt 1])] }

/-- A class with a homogeneous int set field. -/
def setClass : DocClass :=
  ⟨[("_id", .tOid), ("tags", .tSet [.tInt])], [], [], []⟩

/-- A fresh, empty `setClass` document. -/
def setDoc : Doc := setClass.mkDoc

/-- A class with a text (`str`) field, whose descriptor parses to a
`BlobField`. -/
def blobClass : DocClass :=
  ⟨[("_id", .tOid), ("b", .tStr)], [], [], []⟩

/-- A fresh, empty `blobClass` document. -/
def blobDoc : Doc := blobClass.mkDoc

/-- A class with a configured default for its int field. -/
def defaultClass : DocClass :=
  ⟨[("_id", .tOid), ("x", .tInt)], [], [], [("x", .vInt 5)]⟩

/-- A class declaring a required text field. -/
def requiredClass : DocClass :=
  ⟨[("_id", .tOid), ("name", .tStr)], [], ["name"], []⟩

/-! ### Dictionary and set helper lemmas -/

theorem lookupA_updateA_self {κ α : Type} [BEq κ] [LawfulBEq κ]
    (l : List (κ × α)) (k : κ) (v : α) :
    lookupA (updateA l k v) k = some v := by
  induction l with
  | nil => simp [updateA, lookupA]
  | cons p rest ih =>
      obtain ⟨k', w⟩ := p
      cases h : (k' == k) with
      | true => simp [updateA, h, lookupA]
      | false => simp [updateA, h, lookupA, ih]

theorem lookupA_updateA_ne {κ α : Type} [BEq κ] [LawfulBEq κ]
    (l : List (κ × α)) (k k' : κ) (v : α) (h : k' ≠ k) :
    lookupA (updateA l k v) k' = lookupA l k' := by
  induction l with
  | nil => simp [updateA, lookupA, beq_iff_eq, Ne.symm h]
  | cons p rest ih =>
      obtain ⟨k₀, w⟩ := p
      by_cases hk : k₀ = k
      · subst hk
        simp [updateA, lookupA, beq_iff_eq, Ne.symm h]
      · by_cases h0 : k₀ = k'
        · subst h0
          simp [updateA, lookupA, beq_iff_eq, hk]
        · simp [updateA, lookupA, beq_iff_eq, hk, h0, ih]

theorem updateA_ne_nil {κ α : Type} [BEq κ] (l : List (κ × α)) (k : κ) (v : α) :
    updateA l k v ≠ [] := by
  cases l with
  | nil => simp [updateA]
  | cons p rest =>
      obtain ⟨k', w⟩ := p
      by_cases h : (k' == k) = true <;> simp [updateA, h]

theorem mem_setAdd_self (l : List String) (k : String) : k ∈ setAdd l k := by
  by_cases h : k ∈ l <;> simp [setAdd, h]

theorem extendOrAppend_not_list (xs : List Value) (v : Value)
    (h : isListV v = false) :
    extendOrAppend xs v = xs ++ [v] := by
  cases v with
  | vList ys => simp [isListV] at h
  | vNull => rfl
  | vBool b => rfl
  | vInt n => rfl
  | vStr s => rfl
  | vBinary s => rfl
  | vOid s => rfl
  | vSet ys => rfl
  | vDict ys => rfl

/-! ### Behaviour lemmas for the document operations -/

theorem add_operation_plain (d : Doc) (op key : String) (val : Value)
    (hop1 : (op == "$set") = false) (hop2 : (op == "$addToSet") = false)
    (h1 : (lookupA d.structure_ key).isSome = true)
    (h4 : d.opEntry op (d.long_to_short key) = none ∨
          ∃ xs, d.opEntry op (d.long_to_short key) = some (.vList xs)) :
    d.add_operation op key val
      = .ok { d with
              ops := (updateA d.ops op
                (updateA ((lookupA d.ops op).getD []) (d.long_to_short key)
                  (.vList (extendOrAppend
                    (d.opEntryList op (d.long_to_short key)) val)))) } := by
  have hnone : (lookupA d.structure_ key).isNone = false := by
    rcases Option.isSome_iff_exists.mp h1 with ⟨t, ht⟩
    simp [ht]
  simp only [Doc.add_operation, hnone, Bool.false_eq_true, if_false, hop1, hop2]
  rcases h4 with h4 | ⟨xs, h4⟩
  · simp only [Doc.opEntry] at h4
    simp [h4, Doc.opEntryList]
  · simp only [Doc.opEntry] at h4
    simp [h4, Doc.opEntryList]

theorem add_operation_plain_spec (d : Doc) (op key : String) (val : Value)
    (hop1 : (op == "$set") = false) (hop2 : (op == "$addToSet") = false)
    (h1 : (lookupA d.structure_ key).isSome = true)
    (h4 : d.opEntry op (d.long_to_short key) = none ∨
          ∃ xs, d.opEntry op (d.long_to_short key) = some (.vList xs)) :
    ∃ d1, d.add_operation op key val = .ok d1 ∧
      d1.structure_ = d.structure_ ∧
      d1.field_map = d.field_map ∧
      d1.attributes = d.attributes ∧
      d1.dirty_fields = d.dirty_fields ∧
      d1.opEntry op (d.long_to_short key)
        = some (.vList (extendOrAppend
            (d.opEntryList op (d.long_to_short key)) val)) ∧
      (∀ op', op' ≠ op → lookupA d1.ops op' = lookupA d.ops op') := by
  refine ⟨_, add_operation_plain d op key val hop1 hop2 h1 h4,
    rfl, rfl, rfl, rfl, ?_, ?_⟩
  · simp [Doc.opEntry, lookupA_updateA_self]
  · intro op' hne
    exact lookupA_updateA_ne _ _ _ _ hne

theorem unset_present_spec (d : Doc) (key : String) (w : Value)
    (h1 : (lookupA d.structure_ key).isSome = true)
    (h2 : lookupA d.attributes key = some w)
    (h4 : d.opEntry "$unset" (d.long_to_short key) = none ∨
          ∃ xs, d.opEntry "$unset" (d.long_to_short key) = some (.vList xs)) :
    ∃ d1, d.unset key = (d1, none) ∧
      d1.structure_ = d.structure_ ∧
      d1.field_map = d.field_map ∧
      d1.attributes = removeA d.attributes key ∧
      d1.dirty_fields = d.dirty_fields ∧
      d1.opEntry "$unset" (d.long_to_short key)
        = some (.vList (d.opEntryList "$unset" (d.long_to_short key)
            ++ [.vInt 1])) ∧
      (∀ op', op' ≠ "$unset" → lookupA d1.ops op' = lookupA d.ops op') := by
  obtain ⟨da, hda, hs, hf, hattr, hdirty, hop, hother⟩ :=
    add_operation_plain_spec d "$unset" key (.vInt 1) rfl rfl h1 h4
  rw [extendOrAppend_not_list _ (.vInt 1) rfl] at hop
  refine ⟨{ da with attributes := removeA da.attributes key }, ?_, hs, hf,
    ?_, hdirty, hop, hother⟩
  · simp only [Doc.unset, hda]
    rw [if_pos]
    rw [hattr, h2]
    rfl
  · show removeA da.attributes key = removeA d.attributes key
    rw [hattr]

theorem unset_absent_spec (d : Doc) (key : String)
    (h1 : (lookupA d.structure_ key).isSome = true)
    (h2 : lookupA d.attributes key = none)
    (h4 : d.opEntry "$unset" (d.long_to_short key) = none ∨
          ∃ xs, d.opEntry "$unset" (d.long_to_short key) = some (.vList xs)) :
    ∃ d1, d.unset key = (d1, some (.keyError key)) ∧
      d1.opEntry "$unset" (d.long_to_short key)
        = some (.vList (d.opEntryList "$unset" (d.long_to_short key)
            ++ [.vInt 1])) := by
  obtain ⟨da, hda, hs, hf, hattr, hdirty, hop, hother⟩ :=
    add_operation_plain_spec d "$unset" key (.vInt 1) rfl rfl h1 h4
  rw [extendOrAppend_not_list _ (.vInt 1) rfl] at hop
  refine ⟨da, ?_, hop⟩
  simp only [Doc.unset, hda]
  rw [if_neg]
  rw [hattr, h2]
  simp

theorem savePost_reload_raises (d2 : Doc) (hooks : Hooks) (isNew : Bool)
    (res : List (String × Value)) (ops : List (String × List (String × Value)))
    (h2 : d2.operations = .ok ops) (hne : ops ≠ [])
    (h3 : lookupA d2.structure_ "_Document__attributes" = none) :
    d2.savePost hooks isNew res
      = ⟨.error (.attributeError "_Document__attributes"), 1⟩ := by
  have hempty : ops.isEmpty = false := by
    cases ops with
    | nil => exact absurd rfl hne
    | cons a l => rfl
  have hld : d2.load_dict (some res)
      = (d2, some (.attributeError "_Document__attributes")) := by
    simp [Doc.load_dict, Doc.load_attr_dict, Doc.internalAssignErr,
      Doc.key_in_structure, h3]
  simp only [Doc.savePost, h2, hempty, Bool.false_eq_true, if_false, hld]

end Mongotron

open Mongotron

/-- Claim C1, counterexample: on `listDoc` (schema field `xs : [int]`, stored
value `[1]`), reading `xs` yields a fresh `ChangeTrackingList` over `[1]`,
appending `2` marks `xs` dirty on the document and grows only the wrapper's
own copy to `[1, 2]` — but an independent second read of `xs` afterwards
again returns a wrapper over the stored `[1]`, whose contents do not include
the appended `2`.  The claim that the second read observes the mutation is
therefore false. -/
theorem C1_counterexample :
    listDoc.getattrF "xs" = .ok (.rCTL "xs" [.vInt 1]) ∧
    (CTL_append listDoc "xs" [.vInt 1] (.vInt 2)).2 = [.vInt 1, .vInt 2] ∧
    (CTL_append listDoc "xs" [.vInt 1] (.vInt 2)).1.dirty_fields = ["xs"] ∧
    (CTL_append listDoc "xs" [.vInt 1] (.vInt 2)).1.getattrF "xs"
      = .ok (.rCTL "xs" [.vInt 1]) ∧
    Value.vInt 2 ∉ [Value.vInt 1] := by
  refine ⟨rfl, rfl, rfl, rfl, ?_⟩
  simp

/-- Claim C2: the increment operands are not summed.  Evaluating the embedded
code at the failing input — `inc("x", 3)` twice on a fresh `intClass`
document — shows the pending `$inc` entry for `x` is the two-element Python
list `[3, 3]` (already a one-element list `[3]` after a single call), not the
single number `6` the claim requires. -/
theorem C2_inc_accumulates_list_eval :
    ((intDoc.inc "x" (.vInt 3)).bind (fun d1 => d1.inc "x" (.vInt 3))).map Doc.ops
      = .ok [("$inc", [("x", .vList [.vInt 3, .vInt 3])])] ∧
    (intDoc.inc "x" (.vInt 3)).map Doc.ops
      = .ok [("$inc", [("x", .vList [.vInt 3])])] ∧
    Value.vList [.vInt 3, .vInt 3] ≠ Value.vInt 6 := by
  refine ⟨rfl, rfl, ?_⟩
  simp

/-- Claim C3, counterexample: on `intDocX` (schema field `x : int`, attribute
`x = 1`), after `unset("x")` then `set("x", 5)` in the same pending cycle the
compiled operations document contains `x` under `$set` with value `5` but
ALSO still contains a `$unset` entry for `x` — the claim that no `$unset`
entry remains is false. -/
theorem C3_counterexample :
    ((intDocX.unset "x").1.set "x" (.vInt 5)).1.operations
      = .ok [("$unset", [("x", .vList [.vInt 1])]), ("$set", [("x", .vInt 5)])] ∧
    opsDocEntry [("$unset", [("x", .vList [.vInt 1])]), ("$set", [("x", .vInt 5)])]
      "$set" "x" = some (.vInt 5) ∧
    opsDocEntry [("$unset", [("x", .vList [.vInt 1])]), ("$set", [("x", .vInt 5)])]
      "$unset" "x" = some (.vList [.vInt 1]) :=
  ⟨rfl, rfl, rfl⟩

/-- Claim C4, counterexample: on `blobDoc` (schema field `b : str`, whose
descriptor parses to a `BlobField`), `add_to_set("b", 123)` succeeds and
stores the raw int operand `123` inside the pending `$each` list — yet the
descriptor's `collapse` (`bson.Binary` wrapping) raises `TypeError` on that
operand.  The stored pending value is therefore the operand as passed, not
the descriptor's collapse of it (which does not even exist for this input),
and no type rejection occurs: the operand is never validated or
storage-shaped. -/
theorem C4_counterexample :
    (blobDoc.addToSet "b" (.vInt 123)).map
        (fun d1 => d1.opEntry "$addToSet" "b")
      = .ok (some (.vDict [(.vStr "$each", .vList [.vInt 123])])) ∧
    lookupA blobClass.structure_ "b" = some .tStr ∧
    parseTok .tStr = some .blobF ∧
    collapseF .blobF (.vInt 123)
      = .error (.typeError "Binary data must be an instance of str") :=
  ⟨rfl, rfl, rfl, rfl⟩

/-- Claim C5: the post-load state the claim describes never exists.
Evaluating the embedded code on `defaultClass` shows that construction
(`__init__`), `load_dict` (with or without an input document) and
`clear_ops` all raise `AttributeError` at their internal attribute
assignment (`self.__attributes = {}` / `self.__ops = {}`): `__setattr__`
routes the assignment through `key_in_structure`, which raises instead of
ever returning `False`, so no load ever completes — while the repository's
own `test.py` constructs and saves a document, showing the claimed
behaviour is the intent. -/
theorem C5_construction_always_raises :
    (defaultClass.init none).2
      = some (.attributeError "_Document__attributes") ∧
    ((defaultClass.mkDoc).load_dict (some [("x", .vInt 7)])).2
      = some (.attributeError "_Document__attributes") ∧
    ((defaultClass.mkDoc).load_dict none).2
      = some (.attributeError "_Document__attributes") ∧
    ((defaultClass.mkDoc).clear_ops).2
      = some (.attributeError "_Document__ops") :=
  ⟨rfl, rfl, rfl, rfl⟩

/-- Claim C6, counterexample: a fresh `intClass` document has no dirty
fields and no pending operations, yet its compiled operation document is the
non-empty `{$set: {}}`, and `save` issues one store round trip instead of
none. -/
theorem C6_counterexample :
    intDoc.dirty_fields = [] ∧ intDoc.ops = [] ∧
    intDoc.operations = .ok [("$set", [])] ∧
    (intDoc.save defaultHooks []).storeCalls = 1 :=
  ⟨rfl, rfl, rfl, rfl⟩

/-- Claim C8: the round-trip law fails for `DictField`.  The schema token
`{str: str}` parses to a `DictField` with `BlobField` key and value types
(not `basic`), `collapse({'k': 'v'})` produces the Binary-wrapped storage
dict, but `expand` of that storage value raises `NameError` because the
non-basic branch of `DictField.expand` reads the undefined name `dct`
instead of its parameter `value` — so `expand(collapse(x)) == x` cannot
hold. -/
theorem C8_dictfield_expand_nameerror :
    parseTok (.tDict [(.tStr, .tStr)]) = some (.dictF .blobF .blobF) ∧
    collapseF (.dictF .blobF .blobF) (.vDict [(.vStr "k", .vStr "v")])
      = .ok (.vDict [(.vBinary "k", .vBinary "v")]) ∧
    expandF (.dictF .blobF .blobF) (.vDict [(.vBinary "k", .vBinary "v")])
      = .error (.nameError "global name dct is not defined") ∧
    (Except.error (PyErr.nameError "global name dct is not defined")
      ≠ (Except.ok (Value.vDict [(.vStr "k", .vStr "v")]) :
          Except PyErr Value)) := by
  refine ⟨rfl, rfl, rfl, ?_⟩
  simp

/-- Claim C9: `delete` on a document without an identity raises the
`NoIdentity`-style `ValueError` as claimed, but on a document WITH an
identity it raises `TypeError` before any removal is issued: the source
evaluates `self['_id']` and `Document` defines no `__getitem__`, so the
claimed removal round trip and acknowledgement never happen. -/
theorem C9_delete_subscript_typeerror :
    intDoc.delete = ⟨.error (.valueError "document has no _id"), 0⟩ ∧
    idDoc.has_id = true ∧
    idDoc.delete
      = ⟨.error (.typeError "Document object has no attribute getitem"), 0⟩ :=
  ⟨rfl, rfl, rfl⟩

/-- Claim C1 (amended): for every document and schema field declared with a
truthy list-shaped token and holding a stored list (a falsy token such as
`[]` would make the read itself raise `AttributeError` in
`key_in_structure`), appending through the container wrapper returned by a
read marks the field dirty on the owning document without any explicit set
call and grows the wrapper's own contents — but the document's stored
attribute is untouched (the wrapper holds a copy), so a second, independent
read of the same field returns a fresh wrapper over the unchanged stored
value, which does not include the mutation. -/
theorem C1_append_marks_dirty_but_second_read_misses (d : Doc) (key : String)
    (t : TypeTok) (xs : List Value) (v : Value)
    (h1 : lookupA d.structure_ key = some t)
    (h0 : tokTruthy t = true)
    (h2 : isSetLit t = false)
    (h3 : lookupA d.attributes key = some (.vList xs)) :
    d.getattrF key = .ok (.rCTL key xs) ∧
    key ∈ (CTL_append d key xs v).1.dirty_fields ∧
    (CTL_append d key xs v).2 = xs ++ [v] ∧
    (CTL_append d key xs v).1.attributes = d.attributes ∧
    (CTL_append d key xs v).1.getattrF key = .ok (.rCTL key xs) := by
  have hread : d.getattrF key = .ok (.rCTL key xs) := by
    simp only [Doc.getattrF, Doc.key_in_structure, h1, h0, if_true, h3]
    simp [getattrPresent, h2]
  exact ⟨hread, mem_setAdd_self _ _, rfl, rfl, hread⟩

/-- Claim C1 (amended), witness at `listDoc` with appended element `2`. -/
theorem C1_amended_witness :
    listDoc.getattrF "xs" = .ok (.rCTL "xs" [.vInt 1]) ∧
    "xs" ∈ (CTL_append listDoc "xs" [.vInt 1] (.vInt 2)).1.dirty_fields ∧
    (CTL_append listDoc "xs" [.vInt 1] (.vInt 2)).2 = [.vInt 1] ++ [.vInt 2] ∧
    (CTL_append listDoc "xs" [.vInt 1] (.vInt 2)).1.attributes
      = listDoc.attributes ∧
    (CTL_append listDoc "xs" [.vInt 1] (.vInt 2)).1.getattrF "xs"
      = .ok (.rCTL "xs" [.vInt 1]) :=
  C1_append_marks_dirty_but_second_read_misses listDoc "xs" (.tList [.tInt])
    [.vInt 1] (.vInt 2) rfl rfl rfl rfl

/-- Claim C10: for every declared schema field absent from the attributes,
`unset(key)` — and `set(key, None)`, which routes to it — first enqueues the
`$unset` pending operation and then raises `KeyError` when deleting the
absent attribute, so the call is not a no-op: afterwards the pending-ops
state holds a `$unset` entry for the key (the previous operand list grown by
the operand `1`), different from what it held before. -/
theorem C10_unset_absent_enqueues_then_raises (d : Doc) (key : String)
    (h1 : (lookupA d.structure_ key).isSome = true)
    (h2 : lookupA d.attributes key = none)
    (h4 : d.opEntry "$unset" (d.long_to_short key) = none ∨
          ∃ xs, d.opEntry "$unset" (d.long_to_short key) = some (.vList xs)) :
    d.set key .vNull = d.unset key ∧
    (d.unset key).2 = some (.keyError key) ∧
    ((d.unset key).1).opEntry "$unset" (d.long_to_short key)
      = some (.vList (d.opEntryList "$unset" (d.long_to_short key) ++ [.vInt 1])) ∧
    ((d.unset key).1).opEntry "$unset" (d.long_to_short key)
      ≠ d.opEntry "$unset" (d.long_to_short key) := by
  obtain ⟨d1, hd1, hop⟩ := unset_absent_spec d key h1 h2 h4
  have hnew : ((d.unset key).1).opEntry "$unset" (d.long_to_short key)
      = some (.vList (d.opEntryList "$unset" (d.long_to_short key)
          ++ [.vInt 1])) := by
    rw [hd1]
    exact hop
  refine ⟨rfl, by rw [hd1], hnew, ?_⟩
  rw [hnew]
  rcases h4 with h4 | ⟨xs, h4⟩
  · simp [h4]
  · have hlist : d.opEntryList "$unset" (d.long_to_short key) = xs := by
      simp only [Doc.opEntry] at h4
      simp [Doc.opEntryList, h4]
    rw [hlist, h4]
    intro heq
    have hxs := Value.vList.inj (Option.some.inj heq)
    have hlen := congrArg List.length hxs
    simp at hlen

/-- Claim C10, witness at `intDoc` and absent field `x`. -/
theorem C10_witness :
    intDoc.set "x" .vNull = intDoc.unset "x" ∧
    (intDoc.unset "x").2 = some (.keyError "x") ∧
    ((intDoc.unset "x").1).opEntry "$unset" "x"
      = some (.vList (intDoc.opEntryList "$unset" "x" ++ [.vInt 1])) ∧
    ((intDoc.unset "x").1).opEntry "$unset" "x"
      ≠ intDoc.opEntry "$unset" "x" :=
  C10_unset_absent_enqueues_then_raises intDoc "x" rfl rfl (Or.inl rfl)

/-- Claim C3 (amended): after `unset(key)` then `set(key, v)` in the same
pending cycle (starting with no dirty fields), the compiled operations
document contains `key` under `$set` with value `v` (converted by the
operations compiler: sets become lists) — but, contrary to the claim, the
`$unset` entry for `key` enqueued by the unset is NOT removed and is still
present in the compiled document. -/
theorem C3_set_after_unset_keeps_unset_entry (d : Doc) (key : String)
    (w v : Value)
    (h1 : (lookupA d.structure_ key).isSome = true)
    (h2 : lookupA d.attributes key = some w)
    (h3 : d.dirty_fields = [])
    (h4 : d.opEntry "$unset" (d.long_to_short key) = none ∨
          ∃ xs, d.opEntry "$unset" (d.long_to_short key) = some (.vList xs))
    (h5 : isNoneV v = false) :
    (d.unset key).2 = none ∧
    ((d.unset key).1.set key v).2 = none ∧
    ∃ m, ((d.unset key).1.set key v).1.operations = .ok m ∧
      opsDocEntry m "$set" (d.long_to_short key) = some (convOp v) ∧
      (opsDocEntry m "$unset" (d.long_to_short key)).isSome = true := by
  obtain ⟨d1, hd1, hs1, hf1, hattr1, hdirty1, hop1u, hother1⟩ :=
    unset_present_spec d key w h1 h2 h4
  have hsetv : d1.set key v
      = ({ d1 with
            dirty_fields := setAdd d1.dirty_fields key,
            attributes := updateA d1.attributes key v }, none) := by
    simp [Doc.set, h5]
  have hgoal2 : ((d.unset key).1.set key v).2 = none := by
    rw [hd1]
    show (d1.set key v).2 = none
    rw [hsetv]
  have hd2 : ((d.unset key).1.set key v).1
      = { d1 with
          dirty_fields := setAdd d1.dirty_fields key,
          attributes := updateA d1.attributes key v } := by
    rw [hd1]
    show (d1.set key v).1 = _
    rw [hsetv]
  have hops2 : ((d.unset key).1.set key v).1.operations
      = .ok (updateA d1.ops "$set" [(d.long_to_short key, convOp v)]) := by
    rw [hd2]
    simp only [Doc.operations, hdirty1, h3]
    simp [setAdd, Doc.buildFields, lookupA_updateA_self, updateA,
      Doc.long_to_short, hf1, Except.map]
  refine ⟨by rw [hd1], hgoal2,
    updateA d1.ops "$set" [(d.long_to_short key, convOp v)], hops2, ?_, ?_⟩
  · simp [opsDocEntry, lookupA_updateA_self, lookupA]
  · simp only [opsDocEntry]
    rw [lookupA_updateA_ne _ _ _ _ (by decide : ("$unset" : String) ≠ "$set")]
    have hx : lookupA ((lookupA d1.ops "$unset").getD [])
        (d.long_to_short key) = d1.opEntry "$unset" (d.long_to_short key) := rfl
    rw [hx, hop1u]
    rfl

/-- Claim C3 (amended), witness at `intDocX`, `unset("x")` then
`set("x", 5)`. -/
theorem C3_amended_witness :
    (intDocX.unset "x").2 = none ∧
    ((intDocX.unset "x").1.set "x" (.vInt 5)).2 = none ∧
    ∃ m, ((intDocX.unset "x").1.set "x" (.vInt 5)).1.operations = .ok m ∧
      opsDocEntry m "$set" "x" = some (convOp (.vInt 5)) ∧
      (opsDocEntry m "$unset" "x").isSome = true :=
  C3_set_after_unset_keeps_unset_entry intDocX "x" (.vInt 1) (.vInt 5)
    rfl rfl rfl (Or.inl rfl) rfl

/-- Claim C4 (amended): every enqueue operation (`unset`, `inc`, `dec`,
`addToSet`, `push`, `pull`) on an undeclared key fails with `KeyError`
(mongotron's `UnknownField` analogue) and enqueues nothing; on a declared
key, however, the operand is stored in the pending-ops structure as passed
(after only `Document`-to-dict conversion, identity on plain values) — the
field descriptor's `collapse` is never applied, so pending operands keep
their application shape. -/
theorem C4_enqueue_validates_but_stores_raw (d : Doc) (key : String)
    (v : Value) (n : Int) :
    (lookupA d.structure_ key = none →
      d.inc key v = .error (.keyError (key ++ " is not a settable key")) ∧
      d.dec key (.vInt n)
        = .error (.keyError (key ++ " is not a settable key")) ∧
      d.addToSet key v = .error (.keyError (key ++ " is not a settable key")) ∧
      d.pull key v = .error (.keyError (key ++ " is not a settable key")) ∧
      d.push key v = .error (.keyError (key ++ " is not a settable key")) ∧
      d.unset key = (d, some (.keyError (key ++ " is not a settable key")))) ∧
    ((lookupA d.structure_ key).isSome = true →
      d.opEntry "$addToSet" (d.long_to_short key) = none →
      isListV v = false →
      (d.addToSet key v).map (fun d1 => d1.opEntry "$addToSet" (d.long_to_short key))
        = .ok (some (.vDict [(.vStr "$each", .vList [v])])) ∧
      (d.addToSet key v).map Doc.attributes = .ok d.attributes) := by
  constructor
  · intro h
    have herr : ∀ op val,
        d.add_operation op key val
          = .error (.keyError (key ++ " is not a settable key")) := by
      intro op val
      simp [Doc.add_operation, h]
    exact ⟨herr _ _, herr _ _, herr _ _, herr _ _, herr _ _,
      by simp [Doc.unset, herr "$unset" (.vInt 1)]⟩
  · intro h1 h2 h3
    have hnone : (lookupA d.structure_ key).isNone = false := by
      rcases Option.isSome_iff_exists.mp h1 with ⟨t, ht⟩
      simp [ht]
    simp only [Doc.opEntry] at h2
    have haddset : d.addToSet key v
        = .ok { d with
                ops := (updateA d.ops "$addToSet"
                  (updateA ((lookupA d.ops "$addToSet").getD [])
                    (d.long_to_short key)
                    (.vDict [(.vStr "$each", .vList [v])]))) } := by
      simp only [Doc.addToSet, Doc.add_operation, hnone, Bool.false_eq_true,
        if_false]
      simp [h2, eachLookup, eachUpdate, extendOrAppend_not_list _ _ h3]
    rw [haddset]
    constructor
    · simp only [Except.map, Doc.opEntry, lookupA_updateA_self,
        Option.getD_some]
    · rfl

/-- Claim C4 (amended), witness: `inc` on the undeclared key `zzz` of
`setDoc` fails with `KeyError` (likewise for the other enqueue wrappers),
while `addToSet("tags", set([1, 2]))` on the declared key stores the raw set
operand. -/
theorem C4_amended_witness :
    (setDoc.inc "zzz" (.vInt 3)
        = .error (.keyError ("zzz" ++ " is not a settable key")) ∧
      setDoc.dec "zzz" (.vInt 3)
        = .error (.keyError ("zzz" ++ " is not a settable key")) ∧
      setDoc.addToSet "zzz" (.vInt 3)
        = .error (.keyError ("zzz" ++ " is not a settable key")) ∧
      setDoc.pull "zzz" (.vInt 3)
        = .error (.keyError ("zzz" ++ " is not a settable key")) ∧
      setDoc.push "zzz" (.vInt 3)
        = .error (.keyError ("zzz" ++ " is not a settable key")) ∧
      setDoc.unset "zzz"
        = (setDoc, some (.keyError ("zzz" ++ " is not a settable key")))) ∧
    ((setDoc.addToSet "tags" (.vSet [.vInt 1, .vInt 2])).map
        (fun d1 => d1.opEntry "$addToSet" "tags")
      = .ok (some (.vDict [(.vStr "$each",
          .vList [.vSet [.vInt 1, .vInt 2]])])) ∧
     (setDoc.addToSet "tags" (.vSet [.vInt 1, .vInt 2])).map Doc.attributes
      = .ok setDoc.attributes) :=
  ⟨(C4_enqueue_validates_but_stores_raw setDoc "zzz" (.vInt 3) 3).1 rfl,
   (C4_enqueue_validates_but_stores_raw setDoc "tags"
      (.vSet [.vInt 1, .vInt 2]) 3).2 rfl rfl rfl⟩

/-- Claim C6 (amended): the compiled operation document always contains the
`$set` key, so it is never empty — hence every save that passes the
required-fields check and compiles its operations issues exactly one store
round trip, even when no field is dirty and no operation is pending, and
then fails with `AttributeError` while reloading the store's result
(`load_dict`'s attribute reset raises), never completing successfully.
(The hypothesis that the mangled internal name is not a schema key holds
for every real schema.) -/
theorem C6_operations_nonempty_save_always_trips (d : Doc) (hooks : Hooks)
    (res : List (String × Value))
    (m ops : List (String × List (String × Value))) :
    (d.operations = .ok m → m ≠ []) ∧
    (missingOf (d.preHooked hooks) = [] →
      (d.preHooked hooks).operations = .ok ops →
      lookupA (d.preHooked hooks).structure_ "_Document__attributes" = none →
      (d.save hooks res).storeCalls = 1 ∧
      (d.save hooks res).result
        = .error (.attributeError "_Document__attributes")) := by
  have hopsne : ∀ (dx : Doc) (mx : List (String × List (String × Value))),
      dx.operations = .ok mx → mx ≠ [] := by
    intro dx mx hm
    simp only [Doc.operations] at hm
    cases hb : dx.buildFields dx.dirty_fields [] with
    | error e =>
        rw [hb] at hm
        simp at hm
    | ok fields =>
        rw [hb] at hm
        simp only [Except.ok.injEq] at hm
        rw [← hm]
        exact updateA_ne_nil _ _ _
  refine ⟨hopsne d m, ?_⟩
  intro h1 h2 h3
  simp only [Doc.save, Doc.preHooked] at h1 h2 h3 ⊢
  rw [if_neg (fun hc => hc h1)]
  rw [savePost_reload_raises _ hooks _ res ops h2 (hopsne _ _ h2) h3]
  exact ⟨rfl, rfl⟩

/-- Claim C6 (amended), witness: the compiled operation document of the
clean `intDoc` is the non-empty `{$set: {}}`, and its save issues one round
trip and then fails with `AttributeError` during the reload. -/
theorem C6_amended_witness :
    ([("$set", ([] : List (String × Value)))]
        ≠ ([] : List (String × List (String × Value)))) ∧
    (intDoc.save defaultHooks []).storeCalls = 1 ∧
    (intDoc.save defaultHooks []).result
      = .error (.attributeError "_Document__attributes") :=
  ⟨(C6_operations_nonempty_save_always_trips intDoc defaultHooks []
      [("$set", [])] [("$set", [])]).1 rfl,
   (C6_operations_nonempty_save_always_trips intDoc defaultHooks []
      [("$set", [])] [("$set", [])]).2 rfl rfl rfl⟩

/-- Claim C7: when the schema requires fields that hold no value after
`pre_save` and the matching `pre_insert`/`pre_update` hook have run — so
hooks had their chance to populate them — `save` fails with the
missing-required-fields error reporting exactly the missing names, and
issues no store round trip. -/
theorem C7_missing_required_fails_before_store (d : Doc) (hooks : Hooks)
    (res : List (String × Value))
    (h : missingOf (d.preHooked hooks) ≠ []) :
    (d.save hooks res).result
      = .error (.missingRequiredFields (missingOf (d.preHooked hooks))) ∧
    (d.save hooks res).storeCalls = 0 := by
  have hsave : d.save hooks res
      = ⟨.error (.missingRequiredFields (missingOf (d.preHooked hooks))), 0⟩ := by
    simp only [Doc.save, Doc.preHooked] at h ⊢
    rw [if_pos h]
  rw [hsave]
  exact ⟨rfl, rfl⟩

/-- Claim C7, witness: a fresh `requiredClass` document (required field
`name` never set, no-op hooks) fails to save with the missing names and
zero round trips. -/
theorem C7_witness :
    ((requiredClass.mkDoc).save defaultHooks []).result
      = .error (.missingRequiredFields ["name"]) ∧
    ((requiredClass.mkDoc).save defaultHooks []).storeCalls = 0 :=
  C7_missing_required_fails_before_store (requiredClass.mkDoc) defaultHooks []
    (fun h => List.noConfusion (show ("name" :: [] : List String) = [] from h))

